import Mathlib

/-!
Shallow embedding of the authentication core of the repository
(`src/src/api/auth.py`, `src/src/api/users.py`) together with the
collaborating services it calls.  Route handlers are translated line by
line from `src/src/api/auth.py` and `src/src/api/users.py`.  The service
layer (`src/services/auth.py`, `src/services/users.py`,
`src/services/redis_cache.py`) is not part of the provided sources, so
those operations are modelled from the specification, as marked on each
definition.
-/

deriving instance DecidableEq for Except

/-- The two static roles of the system (standard user, administrator). -/
inductive Role
  | user
  | admin
deriving DecidableEq, Repr

/-- Token purposes from the data model: ACCESS, EMAIL_VERIFY, PASSWORD_RESET. -/
inductive Purpose
  | ACCESS
  | EMAIL_VERIFY
  | PASSWORD_RESET
deriving DecidableEq, Repr

/-- Claims carried by a token: subject, purpose, issuedAt, expiresAt. -/
structure Claims where
  sub : String
  purpose : Purpose
  issuedAt : Nat
  expiresAt : Nat
deriving DecidableEq, Repr

/-- Injective-enough encoding of a string as a natural number, used to let the
modelled signature depend on the signed claims. -/
def encodeString (s : String) : Nat :=
  s.data.foldl (fun a c => a * 1114112 + c.toNat + 1) 0

/-- Encoding of a claim set as a natural number. -/
def encodeClaims (c : Claims) : Nat :=
  Nat.pair (encodeString c.sub)
    (Nat.pair c.purpose.toCtorIdx (Nat.pair c.issuedAt c.expiresAt))

/-- Modelled from the spec: the Token Service signs encoded claims with a
process-wide secret key; a signature is valid exactly when it equals the
signing function applied to the presented claims with that key. -/
def sign (key : Nat) (c : Claims) : Nat :=
  Nat.pair key (encodeClaims c)

/-- A serialized token: claims plus signature. -/
structure Token where
  claims : Claims
  sig : Nat
deriving DecidableEq, Repr

/-- Token Service error taxonomy from the spec. -/
inductive TokenError
  | ErrInvalidSignature
  | ErrExpired
  | ErrPurposeMismatch
  | ErrMalformed
deriving DecidableEq, Repr

/-- Modelled from the spec: `issue(purpose, subjectClaim, ttl)` encodes claims,
signs with the process-wide secret key and returns the serialized token. -/
def issue (key : Nat) (purpose : Purpose) (sub : String) (now ttl : Nat) : Token :=
  let c : Claims := { sub := sub, purpose := purpose, issuedAt := now, expiresAt := now + ttl }
  { claims := c, sig := sign key c }

/-- Modelled from the spec: `validate(serializedToken, expectedPurpose)` parses,
verifies the signature, checks `now < expiresAt`, checks
`purpose == expectedPurpose`, and returns the subject claim on success. -/
def validate (key now : Nat) (t : Token) (expected : Purpose) : Except TokenError String :=
  if t.sig = sign key t.claims then
    if now < t.claims.expiresAt then
      if t.claims.purpose = expected then Except.ok t.claims.sub
      else Except.error TokenError.ErrPurposeMismatch
    else Except.error TokenError.ErrExpired
  else Except.error TokenError.ErrInvalidSignature

/-- Modelled from the spec: `create_access_token` (defined in
`src/services/auth.py`, which is not among the provided sources) is the Token
Service issue operation used by the login path, so it issues a token for the
ACCESS purpose whose subject is the `sub` entry of its `data` argument. -/
def create_access_token (key now ttl : Nat) (sub : String) : Token :=
  issue key Purpose.ACCESS sub now ttl

/-- Modelled from the spec: `get_email_from_token` (defined in
`src/services/auth.py`, which is not among the provided sources) decodes a
token and yields its subject claim when the signature is valid and the token
is unexpired, and nothing otherwise.  Its callers in `src/src/api/auth.py`
hand it tokens produced by `create_access_token` (the forgot-password flow)
as well as email-verification tokens, and pass no expected purpose, so it
performs no purpose comparison. -/
def get_email_from_token (key now : Nat) (t : Token) : Option String :=
  if t.sig = sign key t.claims then
    if now < t.claims.expiresAt then some t.claims.sub else none
  else none

/-- Modelled from the spec: the Credential Hasher `hash` operation, an opaque
one-way function of the plaintext. -/
def get_password_hash (p : String) : String :=
  "hashed:" ++ p

/-- Modelled from the spec: the Credential Hasher `verify` operation; for all
passwords p, `verify(p, hash(p)) = true`, and mismatches yield false. -/
def verify_password (p h : String) : Bool :=
  get_password_hash p == h

/-- A durable user record, as exposed by the user repository. -/
structure User where
  id : Nat
  username : String
  email : String
  hashed_password : String
  is_verified : Bool
  role : Role
  avatar : Option String
deriving DecidableEq, Repr

/-- The `UserCacheModel` projection written to the session cache:
id, username, email, is_verified, role. -/
structure CachedUser where
  id : Nat
  username : String
  email : String
  is_verified : Bool
  role : Role
deriving DecidableEq, Repr

/-- The session cache: availability flag (`redis_cache.redis`) and a store of
key, projection and TTL triples. -/
structure RedisCache where
  redis : Bool
  store : List (String × CachedUser × Nat)
deriving DecidableEq, Repr

/-- Modelled from the spec: `redis_cache.set(key, projection, ttl)` always
overwrites the entry for the key, last write wins. -/
def cacheSet (c : RedisCache) (key : String) (v : CachedUser) (expire : Nat) : RedisCache :=
  { c with store := (key, v, expire) :: c.store.filter (fun e => ¬ (e.1 == key)) }

/-- Modelled from the spec: cache read, `get(key) -> projection | miss`. -/
def cacheGet (c : RedisCache) (key : String) : Option (CachedUser × Nat) :=
  (c.store.find? (fun e => e.1 == key)).map (fun e => e.2)

namespace UserService

/-- Modelled from the spec: repository lookup of a user record by email. -/
def get_user_by_email (db : List User) (email : String) : Option User :=
  db.find? (fun u => u.email == email)

/-- Modelled from the spec: repository lookup of a user record by username. -/
def get_user_by_username (db : List User) (username : String) : Option User :=
  db.find? (fun u => u.username == username)

/-- Modelled from the spec: `create_user` creates the durable record, initially
unverified, carrying the already-hashed password it receives; returns the new
record and the extended repository state. -/
def create_user (db : List User) (username email password : String) : User × List User :=
  let u : User := { id := db.length, username := username, email := email,
                    hashed_password := password, is_verified := false,
                    role := Role.user, avatar := none }
  (u, db ++ [u])

/-- Modelled from the spec: `confirmed_email` marks the record with the given
email as verified. -/
def confirmed_email (db : List User) (email : String) : List User :=
  db.map (fun u => if u.email == email then { u with is_verified := true } else u)

/-- Modelled from the spec: `reset_password` persists the new (already hashed)
password on the record with the given id. -/
def reset_password (db : List User) (id : Nat) (hashed : String) : List User :=
  db.map (fun u => if u.id == id then { u with hashed_password := hashed } else u)

/-- Modelled from the spec: `update_avatar_url` persists the new avatar URL on
the record with the given email and returns the updated record if one exists. -/
def update_avatar_url (db : List User) (email url : String) : Option User × List User :=
  ((db.find? (fun u => u.email == email)).map (fun u => { u with avatar := some url }),
   db.map (fun u => if u.email == email then { u with avatar := some url } else u))

end UserService

/-- An HTTPException: status code and detail message. -/
structure HTTPEx where
  status : Nat
  detail : String
deriving DecidableEq, Repr

/-- A background task scheduled by a route handler. -/
inductive BgTask
  | sendEmail (email username base_url : String)
  | sendResetPasswordEmail (email username host : String) (token : Token)
deriving DecidableEq, Repr

/-- The world state threaded through the route handlers: the durable user
repository, the session cache, the scheduled background tasks, the signing
key, the current time and the configured token TTL. -/
structure State where
  db : List User
  cache : RedisCache
  tasks : List BgTask
  key : Nat
  now : Nat
  ttl : Nat
deriving DecidableEq, Repr

/-- Request body of `POST /auth/register`. -/
structure UserCreate where
  username : String
  email : String
  password : String
deriving DecidableEq, Repr

/-- Request body of `POST /auth/login`. -/
structure UserLogin where
  email : String
  password : String
deriving DecidableEq, Repr

/-- Request body of `POST /auth/request_email` and `POST /auth/forgot-password`. -/
structure RequestEmail where
  email : String
deriving DecidableEq, Repr

/-- Request body of `POST /auth/reset-password`. -/
structure ResetPassword where
  new_password : String
deriving DecidableEq, Repr

/-- Response body of `POST /auth/login`. -/
structure TokenResp where
  access_token : Token
  token_type : String
deriving DecidableEq, Repr

/-- `register_user` from `src/src/api/auth.py` lines 23-42: uniqueness checks
on email then username (409 on conflict), hash password, create the record,
schedule the verification email, return the new user (201). -/
def register_user (st : State) (user_data : UserCreate) (base_url : String) :
    Except HTTPEx User × State :=
  if (UserService.get_user_by_email st.db user_data.email).isSome then
    (Except.error { status := 409, detail := "A user with this email already exists." }, st)
  else if (UserService.get_user_by_username st.db user_data.username).isSome then
    (Except.error { status := 409, detail := "A user with this username already exists." }, st)
  else
    let hashed := get_password_hash user_data.password
    let r := UserService.create_user st.db user_data.username user_data.email hashed
    (Except.ok r.1,
     { st with db := r.2,
               tasks := st.tasks ++ [BgTask.sendEmail r.1.email r.1.username base_url] })

/-- `login_user` from `src/src/api/auth.py` lines 45-66: fetch by email via
`get_user_or_404`, reject unverified (401), verify password (401), issue the
access token, cache the user projection when the cache is up, return the
token. -/
def login_user (st : State) (body : UserLogin) : Except HTTPEx TokenResp × State :=
  match UserService.get_user_by_email st.db body.email with
  | none => (Except.error { status := 404, detail := "User not found" }, st)
  | some user =>
    if user.is_verified = false then
      (Except.error { status := 401, detail := "Email is not verified." }, st)
    else if verify_password body.password user.hashed_password = false then
      (Except.error { status := 401, detail := "Invalid email or password." }, st)
    else
      let access_token := create_access_token st.key st.now st.ttl user.username
      let cached_user : CachedUser :=
        { id := user.id, username := user.username, email := user.email,
          is_verified := user.is_verified, role := user.role }
      let cache' := if st.cache.redis then
          cacheSet st.cache ("user:" ++ user.username) cached_user 3600
        else st.cache
      (Except.ok { access_token := access_token, token_type := "bearer" },
       { st with cache := cache' })

/-- `confirmed_email` from `src/src/api/auth.py` lines 69-85: decode the
token, look the subject up by email, 400 when that fails, succeed without
mutation when already verified, otherwise mark verified. -/
def confirmed_email (st : State) (token : Token) : Except HTTPEx String × State :=
  match get_email_from_token st.key st.now token with
  | none => (Except.error { status := 400, detail := "Verification error" }, st)
  | some email =>
    match UserService.get_user_by_email st.db email with
    | none => (Except.error { status := 400, detail := "Verification error" }, st)
    | some user =>
      if user.is_verified then
        (Except.ok "Your email is already verified.", st)
      else
        (Except.ok "Email successfully verified.",
         { st with db := UserService.confirmed_email st.db email })

/-- `forgot_password_request` from `src/src/api/auth.py` lines 104-128: fetch
by email via `get_user_or_404`, 400 when the account is not verified, issue
the reset token via `create_access_token` bound to the user email, schedule
the reset email, return the 200 message. -/
def forgot_password_request (st : State) (body : RequestEmail) (base_url : String) :
    Except HTTPEx String × State :=
  match UserService.get_user_by_email st.db body.email with
  | none => (Except.error { status := 404, detail := "User not found" }, st)
  | some user =>
    if user.is_verified = false then
      (Except.error { status := 400, detail := "Email is not verified" }, st)
    else
      let reset_token := create_access_token st.key st.now st.ttl user.email
      (Except.ok "Check your email for password reset instructions",
       { st with tasks := st.tasks ++
           [BgTask.sendResetPasswordEmail user.email user.username base_url reset_token] })

/-- `reset_password` from `src/src/api/auth.py` lines 131-149: decode the
token (400 when invalid or expired), look the subject up by the decoded email
(404 when absent), hash the new password and persist it, return the 200
message. -/
def reset_password (st : State) (token : Token) (body : ResetPassword) :
    Except HTTPEx String × State :=
  match get_email_from_token st.key st.now token with
  | none => (Except.error { status := 400, detail := "Invalid or expired token" }, st)
  | some email =>
    match UserService.get_user_by_email st.db email with
    | none => (Except.error { status := 404, detail := "User not found" }, st)
    | some user =>
      let hashed_password := get_password_hash body.new_password
      (Except.ok "Password successfully changed",
       { st with db := UserService.reset_password st.db user.id hashed_password })

/-- Modelled from the spec: `get_current_admin_user` (defined in
`src/services/auth.py`, which is not among the provided sources) resolves the
authenticated caller and rejects callers whose role is not administrator,
before the route body runs. -/
def get_current_admin_user (u : User) : Except HTTPEx User :=
  if u.role = Role.admin then Except.ok u
  else Except.error { status := 403, detail := "Access denied" }

/-- `upload_file` from `src/src/services/upload_file.py`: uploads under the
public id built from the username and returns the built URL for it. -/
def upload_file (version : Nat) (username : String) : String :=
  "RestApp/" ++ username ++ "/v" ++ toString version

/-- A record of one performed upload (file and public-id owner). -/
structure UploadRec where
  filename : String
  username : String
deriving DecidableEq, Repr

/-- `update_avatar_user` from `src/src/api/users.py` lines 32-55: the caller
is resolved through the `get_current_admin_user` dependency before the body
runs; on success the file is uploaded and the avatar URL persisted on the
caller record.  The third component lists the uploads performed. -/
def update_avatar_user (st : State) (caller : User) (file : String) (version : Nat) :
    Except HTTPEx (Option User) × State × List UploadRec :=
  match get_current_admin_user caller with
  | Except.error e => (Except.error e, st, [])
  | Except.ok user =>
    let avatar_url := upload_file version user.username
    let r := UserService.update_avatar_url st.db user.email avatar_url
    (Except.ok r.1, { st with db := r.2 }, [{ filename := file, username := user.username }])

/-- The cached projection of a user record, as built by the login route. -/
def projOf (u : User) : CachedUser :=
  { id := u.id, username := u.username, email := u.email,
    is_verified := u.is_verified, role := u.role }

/-! Concrete fixtures used by counterexamples and witnesses. -/

/-- A verified standard user. -/
def alice : User :=
  { id := 1, username := "alice", email := "alice@example.com",
    hashed_password := get_password_hash "pw123", is_verified := true,
    role := Role.user, avatar := none }

/-- An unverified standard user. -/
def bob : User :=
  { id := 2, username := "bob", email := "bob@example.com",
    hashed_password := get_password_hash "pw456", is_verified := false,
    role := Role.user, avatar := none }

/-- A sample world state: alice and bob in the repository, cache available
and empty, no scheduled tasks, signing key 7, time 10, token TTL 100. -/
def sampleState : State :=
  { db := [alice, bob], cache := { redis := true, store := [] },
    tasks := [], key := 7, now := 10, ttl := 100 }

/-- Claim C1: the reset token issued by the forgot-password flow is produced
by `create_access_token`, hence carries the ACCESS purpose; the spec-modelled
`validate` with expected purpose PASSWORD_RESET rejects it with
ErrPurposeMismatch; yet the reset-password consumption path accepts it and
changes the password, so an ACCESS token is accepted where a PASSWORD_RESET
token is expected. -/
theorem c1_reset_path_accepts_access_token :
    (create_access_token 7 10 100 "alice@example.com").claims.purpose = Purpose.ACCESS ∧
    validate 7 10 (create_access_token 7 10 100 "alice@example.com") Purpose.PASSWORD_RESET
      = Except.error TokenError.ErrPurposeMismatch ∧
    (reset_password sampleState (create_access_token 7 10 100 "alice@example.com")
       { new_password := "npw" }).1 = Except.ok "Password successfully changed" := by
  decide

/-- Claim C2 counterexample: logging in with an email matching no user fails
with status 404, which is neither a success nor a 401, refuting the claim
that the login boundary returns no failure status other than 401. -/
theorem c2_login_unknown_email_is_404 :
    (login_user sampleState { email := "ghost@example.com", password := "pw" }).1
      = Except.error { status := 404, detail := "User not found" } ∧
    (404 : Nat) ≠ 401 :=
  ⟨rfl, by decide⟩

/-- Claim C2 (amended): every login either succeeds with the token response,
or fails with status 401 (unverified account or wrong password), or fails
with status 404, the latter exactly when no user record matches the email. -/
theorem c2_login_status_partition (st : State) (body : UserLogin) :
    (∃ r, (login_user st body).1 = Except.ok r) ∨
    (∃ e, (login_user st body).1 = Except.error e ∧
      (e.status = 401 ∨
       (e.status = 404 ∧ UserService.get_user_by_email st.db body.email = none))) := by
  cases h : UserService.get_user_by_email st.db body.email with
  | none =>
    have hh : (login_user st body).1
        = Except.error { status := 404, detail := "User not found" } := by
      simp [login_user, h]
    exact Or.inr ⟨_, hh, Or.inr ⟨rfl, rfl⟩⟩
  | some user =>
    by_cases hv : user.is_verified
    · by_cases hp : verify_password body.password user.hashed_password
      · have hh : (login_user st body).1 = Except.ok
            { access_token := create_access_token st.key st.now st.ttl user.username,
              token_type := "bearer" } := by
          simp [login_user, h, hv, hp]
        exact Or.inl ⟨_, hh⟩
      · have hh : (login_user st body).1
            = Except.error { status := 401, detail := "Invalid email or password." } := by
          simp [login_user, h, hv, hp]
        exact Or.inr ⟨_, hh, Or.inl rfl⟩
    · have hh : (login_user st body).1
          = Except.error { status := 401, detail := "Email is not verified." } := by
        simp [login_user, h, hv]
      exact Or.inr ⟨_, hh, Or.inl rfl⟩

/-- Claim C3: the login checks run in a fixed order: an unknown email is
rejected first; a known but unverified user is rejected as unverified
whatever the password; the password is compared only for verified users,
rejecting mismatch; and when all three checks pass an ACCESS-purpose token
for the username is issued, the session cache is populated when available,
and the token is returned. -/
theorem c3_login_check_order (st : State) (body : UserLogin) :
    (UserService.get_user_by_email st.db body.email = none →
      login_user st body = (Except.error { status := 404, detail := "User not found" }, st)) ∧
    (∀ user, UserService.get_user_by_email st.db body.email = some user →
      (user.is_verified = false →
        login_user st body
          = (Except.error { status := 401, detail := "Email is not verified." }, st)) ∧
      (user.is_verified = true → verify_password body.password user.hashed_password = false →
        login_user st body
          = (Except.error { status := 401, detail := "Invalid email or password." }, st)) ∧
      (user.is_verified = true → verify_password body.password user.hashed_password = true →
        (create_access_token st.key st.now st.ttl user.username).claims.purpose = Purpose.ACCESS ∧
        login_user st body =
          (Except.ok { access_token := create_access_token st.key st.now st.ttl user.username,
                       token_type := "bearer" },
           { st with cache := if st.cache.redis then
               cacheSet st.cache ("user:" ++ user.username) (projOf user) 3600
             else st.cache }))) := by
  refine ⟨fun h => by simp [login_user, h], fun user h => ⟨?_, ?_, ?_⟩⟩
  · intro hv; simp [login_user, h, hv]
  · intro hv hp; simp [login_user, h, hv, hp]
  · intro hv hp; exact ⟨rfl, by simp [login_user, h, hv, hp, projOf]⟩

/-- Claim C3 witness: in the sample state, logging in as the unverified user
bob is rejected as unverified, whatever password is sent. -/
theorem c3_login_check_order_witness :
    login_user sampleState { email := "bob@example.com", password := "pw456" }
      = (Except.error { status := 401, detail := "Email is not verified." }, sampleState) :=
  ((c3_login_check_order sampleState { email := "bob@example.com", password := "pw456" }).2
    bob (by decide)).1 rfl

/-- Claim C9: executing a password reset never touches the session cache:
the cache component of the state, and hence every cached projection, is
unchanged on every outcome of the reset-password route. -/
theorem c9_reset_password_cache_frame (st : State) (t : Token) (body : ResetPassword) :
    (reset_password st t body).2.cache = st.cache ∧
    ∀ k, cacheGet (reset_password st t body).2.cache k = cacheGet st.cache k := by
  have h : (reset_password st t body).2.cache = st.cache := by
    unfold reset_password
    split
    · rfl
    · split <;> rfl
  exact ⟨h, fun k => by rw [h]⟩

/-- Claim C4: reset-password looks the subject up by the email claim carried
in the token; it fails with 400 exactly when the token is invalid (bad
signature) or expired, fails with 404 when no user matches the decoded email
claim, and otherwise hashes the new password, persists it on that user, and
succeeds with the 200 message. -/
theorem c4_reset_password_contract (st : State) (t : Token) (body : ResetPassword) :
    (get_email_from_token st.key st.now t = none ↔
      (t.sig ≠ sign st.key t.claims ∨ ¬ st.now < t.claims.expiresAt)) ∧
    (∀ e, get_email_from_token st.key st.now t = some e → e = t.claims.sub) ∧
    (get_email_from_token st.key st.now t = none →
      reset_password st t body
        = (Except.error { status := 400, detail := "Invalid or expired token" }, st)) ∧
    (∀ email, get_email_from_token st.key st.now t = some email →
      (UserService.get_user_by_email st.db email = none →
        reset_password st t body
          = (Except.error { status := 404, detail := "User not found" }, st)) ∧
      (∀ user, UserService.get_user_by_email st.db email = some user →
        reset_password st t body = (Except.ok "Password successfully changed",
          { st with db := UserService.reset_password st.db user.id (get_password_hash body.new_password) }))) := by
  refine ⟨?_, ?_, ?_, ?_⟩
  · unfold get_email_from_token
    by_cases h1 : t.sig = sign st.key t.claims
    · by_cases h2 : st.now < t.claims.expiresAt
      · simp [h1, h2]
      · simp [h1, h2]
    · simp [h1]
  · intro e he
    unfold get_email_from_token at he
    by_cases h1 : t.sig = sign st.key t.claims
    · by_cases h2 : st.now < t.claims.expiresAt
      · simp [h1, h2] at he; exact he.symm
      · simp [h1, h2] at he
    · simp [h1] at he
  · intro h; simp [reset_password, h]
  · intro email he
    exact ⟨fun hu => by simp [reset_password, he, hu],
           fun user hu => by simp [reset_password, he, hu]⟩

/-- Claim C4 witness: in the sample state, a valid token decoding to the
email of alice resets her password and persists the new hash. -/
theorem c4_reset_password_contract_witness :
    reset_password sampleState (create_access_token 7 10 100 "alice@example.com")
        { new_password := "npw" }
      = (Except.ok "Password successfully changed",
         { sampleState with db := UserService.reset_password sampleState.db alice.id (get_password_hash "npw") }) :=
  ((c4_reset_password_contract sampleState (create_access_token 7 10 100 "alice@example.com")
      { new_password := "npw" }).2.2.2 "alice@example.com" (by decide)).2 alice (by decide)

/-- Claim C5: email confirmation is idempotent: when the token does not
decode or its subject resolves to no user, the route fails with 400 and the
state is unmutated; when the resolved user is already verified it succeeds
without mutation; only for a not-yet-verified resolved subject is the
verified flag set. -/
theorem c5_confirmed_email_idempotent (st : State) (t : Token) :
    ((get_email_from_token st.key st.now t).bind (UserService.get_user_by_email st.db) = none →
      confirmed_email st t = (Except.error { status := 400, detail := "Verification error" }, st)) ∧
    (∀ e user, get_email_from_token st.key st.now t = some e →
      UserService.get_user_by_email st.db e = some user →
      (user.is_verified = true →
        confirmed_email st t = (Except.ok "Your email is already verified.", st)) ∧
      (user.is_verified = false →
        confirmed_email st t = (Except.ok "Email successfully verified.",
          { st with db := UserService.confirmed_email st.db e }))) := by
  constructor
  · intro h
    cases he : get_email_from_token st.key st.now t with
    | none => simp [confirmed_email, he]
    | some e =>
      rw [he] at h
      simp at h
      simp [confirmed_email, he, h]
  · intro e user he hu
    exact ⟨fun hv => by simp [confirmed_email, he, hu, hv],
           fun hv => by simp [confirmed_email, he, hu, hv]⟩

/-- Claim C5 witness: a valid token for the already-verified user alice
succeeds and leaves the state untouched. -/
theorem c5_confirmed_email_idempotent_witness :
    confirmed_email sampleState (create_access_token 7 10 100 "alice@example.com")
      = (Except.ok "Your email is already verified.", sampleState) :=
  ((c5_confirmed_email_idempotent sampleState
      (create_access_token 7 10 100 "alice@example.com")).2
    "alice@example.com" alice (by decide) (by decide)).1 rfl

/-- Claim C6 counterexample: for the verified user alice the forgot-password
flow schedules a reset email whose token was produced by
`create_access_token`, so that token carries the ACCESS purpose and not the
PASSWORD_RESET purpose. -/
theorem c6_reset_token_is_access_purpose :
    (forgot_password_request sampleState { email := "alice@example.com" } "http://host").2.tasks
      = [BgTask.sendResetPasswordEmail "alice@example.com" "alice" "http://host"
           (create_access_token 7 10 100 "alice@example.com")] ∧
    (create_access_token 7 10 100 "alice@example.com").claims.purpose = Purpose.ACCESS ∧
    Purpose.ACCESS ≠ Purpose.PASSWORD_RESET := by
  decide

/-- Claim C6 (amended): an unverified account is rejected with 400 before any
token is issued or email scheduled; for a verified account a reset token
bound to the user email claim — issued by the access-token routine, hence
with ACCESS purpose — is scheduled for background delivery and the 200
message returned. -/
theorem c6_forgot_password_amended (st : State) (body : RequestEmail) (base : String) :
    ∀ user, UserService.get_user_by_email st.db body.email = some user →
      (user.is_verified = false →
        forgot_password_request st body base
          = (Except.error { status := 400, detail := "Email is not verified" }, st)) ∧
      (user.is_verified = true →
        (create_access_token st.key st.now st.ttl user.email).claims.sub = user.email ∧
        (create_access_token st.key st.now st.ttl user.email).claims.purpose = Purpose.ACCESS ∧
        forgot_password_request st body base =
          (Except.ok "Check your email for password reset instructions",
           { st with tasks := st.tasks ++
               [BgTask.sendResetPasswordEmail user.email user.username base
                  (create_access_token st.key st.now st.ttl user.email)] })) := by
  intro user h
  exact ⟨fun hv => by simp [forgot_password_request, h, hv],
         fun hv => ⟨rfl, rfl, by simp [forgot_password_request, h, hv]⟩⟩

/-- Claim C6 witness: the unverified user bob is rejected with 400 and the
state, in particular the task list, is unchanged. -/
theorem c6_forgot_password_amended_witness :
    forgot_password_request sampleState { email := "bob@example.com" } "http://host"
      = (Except.error { status := 400, detail := "Email is not verified" }, sampleState) :=
  (c6_forgot_password_amended sampleState { email := "bob@example.com" } "http://host"
     bob (by decide)).1 rfl

/-- Claim C7: registration with an already-used email, or an already-used
username, is rejected with 409 leaving the repository and the scheduled
tasks untouched; when both are unique the password is hashed, an initially
unverified record is created, a verification email is scheduled and the new
public user view is returned. -/
theorem c7_register_contract (st : State) (d : UserCreate) (base : String) :
    ((UserService.get_user_by_email st.db d.email).isSome = true →
      register_user st d base
        = (Except.error { status := 409, detail := "A user with this email already exists." }, st)) ∧
    (UserService.get_user_by_email st.db d.email = none →
      (UserService.get_user_by_username st.db d.username).isSome = true →
      register_user st d base
        = (Except.error { status := 409, detail := "A user with this username already exists." }, st)) ∧
    (UserService.get_user_by_email st.db d.email = none →
      UserService.get_user_by_username st.db d.username = none →
      (UserService.create_user st.db d.username d.email (get_password_hash d.password)).1.is_verified
        = false ∧
      (UserService.create_user st.db d.username d.email (get_password_hash d.password)).1.hashed_password
        = get_password_hash d.password ∧
      register_user st d base =
        (Except.ok (UserService.create_user st.db d.username d.email (get_password_hash d.password)).1,
         { st with
             db := (UserService.create_user st.db d.username d.email (get_password_hash d.password)).2,
             tasks := st.tasks ++ [BgTask.sendEmail d.email d.username base] })) := by
  refine ⟨fun h1 => by simp [register_user, h1],
          fun h1 h2 => by simp [register_user, h1, h2],
          fun h1 h2 => ⟨rfl, rfl, ?_⟩⟩
  simp [register_user, h1, h2, UserService.create_user]

/-- Claim C7 witness: registering with the email of alice is rejected with a
409 conflict and the state is unchanged. -/
theorem c7_register_contract_witness :
    register_user sampleState
        { username := "newalice", email := "alice@example.com", password := "x" } "http://host"
      = (Except.error { status := 409, detail := "A user with this email already exists." },
         sampleState) :=
  (c7_register_contract sampleState
     { username := "newalice", email := "alice@example.com", password := "x" } "http://host").1
    (by decide)

/-- Claim C8: on a successful login with the cache available, the projection
of the user (id, username, email, is_verified, role) is written under the
key built from the username with TTL 3600 and can be read back; with the
cache unavailable the write is skipped and the login still succeeds with the
same token. -/
theorem c8_login_cache_write (st : State) (body : UserLogin) (user : User)
    (hu : UserService.get_user_by_email st.db body.email = some user)
    (hv : user.is_verified = true)
    (hp : verify_password body.password user.hashed_password = true) :
    (st.cache.redis = true →
      login_user st body =
        (Except.ok { access_token := create_access_token st.key st.now st.ttl user.username,
                     token_type := "bearer" },
         { st with cache := cacheSet st.cache ("user:" ++ user.username) (projOf user) 3600 }) ∧
      cacheGet (login_user st body).2.cache ("user:" ++ user.username)
        = some (projOf user, 3600)) ∧
    (st.cache.redis = false →
      login_user st body =
        (Except.ok { access_token := create_access_token st.key st.now st.ttl user.username,
                     token_type := "bearer" }, st)) := by
  constructor
  · intro hr
    have hl : login_user st body =
        (Except.ok { access_token := create_access_token st.key st.now st.ttl user.username,
                     token_type := "bearer" },
         { st with cache := cacheSet st.cache ("user:" ++ user.username) (projOf user) 3600 }) := by
      simp [login_user, hu, hv, hp, hr, projOf]
    refine ⟨hl, ?_⟩
    rw [hl]
    simp [cacheGet, cacheSet, List.find?]
  · intro hr
    simp [login_user, hu, hv, hp, hr]

/-- Claim C8 witness: alice logs in successfully in the sample state, whose
cache is available, and her projection is written under her username key. -/
theorem c8_login_cache_write_witness :
    login_user sampleState { email := "alice@example.com", password := "pw123" } =
      (Except.ok { access_token := create_access_token sampleState.key sampleState.now
                     sampleState.ttl alice.username,
                   token_type := "bearer" },
       { sampleState with
           cache := cacheSet sampleState.cache ("user:" ++ alice.username) (projOf alice) 3600 }) :=
  ((c8_login_cache_write sampleState { email := "alice@example.com", password := "pw123" } alice
      (by decide) rfl (by decide)).1 rfl).1

/-- Claim C10: the avatar update route resolves the caller through the
administrator dependency: any caller without the admin role is rejected with
403 before any upload happens or any record changes; an admin caller has the
file uploaded and the avatar URL persisted on the caller record. -/
theorem c10_avatar_requires_admin (st : State) (caller : User) (file : String) (version : Nat) :
    (caller.role ≠ Role.admin →
      update_avatar_user st caller file version
        = (Except.error { status := 403, detail := "Access denied" }, st, [])) ∧
    (caller.role = Role.admin →
      update_avatar_user st caller file version =
        (Except.ok (UserService.update_avatar_url st.db caller.email
            (upload_file version caller.username)).1,
         { st with db := (UserService.update_avatar_url st.db caller.email
             (upload_file version caller.username)).2 },
         [{ filename := file, username := caller.username }])) := by
  constructor
  · intro h; simp [update_avatar_user, get_current_admin_user, h]
  · intro h; simp [update_avatar_user, get_current_admin_user, h]

/-- Claim C10 witness: alice, a standard user, is rejected with 403 and
neither the state nor the upload list shows any effect. -/
theorem c10_avatar_requires_admin_witness :
    update_avatar_user sampleState alice "face.png" 3
      = (Except.error { status := 403, detail := "Access denied" }, sampleState, []) :=
  (c10_avatar_requires_admin sampleState alice "face.png" 3).1 (by decide)
